import Mathlib

/-!
Verification development for the oxasl correction-and-calibration pipeline.

Sources embedded:
 - src/oxasl/corrections.py : motion, distortion (fieldmap / cblip), sensitivity
 - src/oxasl/basil/quantify.py : quantification orchestration and PV correction
 - the calibration module is exercised by src/oxasl/test/test_calib.py but its
   implementation is not part of the given sources; it is modelled from the spec
   (section 4.6) where noted.

Images are embedded as flat lists of rational voxel values; elementwise image
arithmetic is zipWith / map.  External numeric collaborators (the exponential
function, registration transforms such as struc2asl) are passed in as explicit
function parameters, so every definition stays executable and the theorems
quantify over the collaborator.
-/

namespace Oxasl

/-- Pointwise congruence for zipWith: if the two combining functions agree on
all pairs, the zipped lists agree. -/
theorem zipWith_ext {α β γ : Type} (f g : α → β → γ) (as : List α) (bs : List β)
    (h : ∀ a b, f a b = g a b) : List.zipWith f as bs = List.zipWith g as bs := by
  induction as generalizing bs with
  | nil => simp
  | cons a as ih =>
    cases bs with
    | nil => simp
    | cons b bs => simp [h, ih]

/-- Mapping over a zipWith fuses into the combining function. -/
theorem map_zipWith_fuse {α β γ δ : Type} (g : γ → δ) (f : α → β → γ)
    (as : List α) (bs : List β) :
    (List.zipWith f as bs).map g = List.zipWith (fun a b => g (f a b)) as bs := by
  induction as generalizing bs with
  | nil => simp
  | cons a as ih =>
    cases bs with
    | nil => simp
    | cons b bs => simp [ih]

/-! ## Calibration model

Modelled from the spec: the calibration module (`oxasl.calib`) is not among the
given source files (only its tests are), so the definitions below follow the
spec, section 4.6, cross-checked against src/oxasl/test/test_calib.py.
-/

/-- Modelled from the spec: the `(1 - exp(-TR/T1))` saturation-recovery term of
the M0 formula.  Per the spec the term is skipped (i.e. is 1) unless both TR
and the tissue T1 are given.  `e` stands for the real exponential function,
passed in abstractly. -/
def trFactor (e : ℚ → ℚ) (tr t1t : Option ℚ) : ℚ :=
  match tr, t1t with
  | some trv, some t1v => 1 - e (-(trv / t1v))
  | _, _ => 1

/-- Modelled from the spec: the closed-form M0 formula of section 4.6,
`m0 = sig / (1 - exp(-TR/T1)) / exp(-TE/T2) * gain / pc * exp(-TE/T2b) * alpha`,
applied to one calibration signal value `sig`. -/
def m0Formula (e : ℚ → ℚ) (tr t1t : Option ℚ) (te t2t t2b gain pct alpha : ℚ)
    (sig : ℚ) : ℚ :=
  sig / trFactor e tr t1t / e (-(te / t2t)) * gain / pct * e (-(te / t2b)) * alpha

/-- Modelled from the spec: voxelwise calibration.  M0 is computed per voxel
from the calibration image; calibrated perfusion is `perf / M0 * multiplier`,
or `perf / M0^2 * multiplier^2` in variance mode. -/
def voxelwiseCalib (e : ℚ → ℚ) (tr t1t : Option ℚ)
    (te t2t t2b gain pct alpha multiplier : ℚ) (var : Bool)
    (perf calib : List ℚ) : List ℚ :=
  List.zipWith (fun p c =>
    let m0 := m0Formula e tr t1t te t2t t2b gain pct alpha c
    if var then p / (m0 * m0) * (multiplier * multiplier) else p / m0 * multiplier)
    perf calib

/-- Tissue types of the built-in calibration table. -/
inductive TissueType
  | csf
  | wm
  | gm
deriving DecidableEq

/-- Modelled from the spec: built-in tissue T1 defaults. -/
def tissT1 : TissueType → ℚ
  | .csf => 43 / 10
  | .wm => 1
  | .gm => 13 / 10

/-- Modelled from the spec: built-in tissue T2 defaults; the Bool selects the
T2* variant of the table. -/
def tissT2 : TissueType → Bool → ℚ
  | .csf, false => 750
  | .csf, true => 400
  | .wm, false => 50
  | .wm, true => 60
  | .gm, false => 100
  | .gm, true => 60

/-- Modelled from the spec: built-in tissue-blood coefficient defaults. -/
def tissPC : TissueType → ℚ
  | .csf => 115 / 100
  | .wm => 82 / 100
  | .gm => 98 / 100

/-- Mean of the calibration voxels selected by a boolean mask. -/
def maskedMean (calib : List ℚ) (mask : List Bool) : ℚ :=
  let sel := (List.zip calib mask).filterMap (fun pr => if pr.2 then some pr.1 else none)
  sel.sum / (sel.length : ℚ)

/-- Modelled from the spec: reference-region calibration.  A scalar M0 is
computed from the mean calibration signal inside the mask, with constants from
the built-in tissue table, then `result = perf / M0 * multiplier`. -/
def refregionCalib (e : ℚ → ℚ) (tiss : TissueType) (t2star : Bool)
    (tr te t2b gain alpha multiplier : ℚ) (perf calib : List ℚ)
    (mask : List Bool) : List ℚ :=
  let m0 := m0Formula e (some tr) (some (tissT1 tiss)) te (tissT2 tiss t2star)
    t2b gain (tissPC tiss) alpha (maskedMean calib mask)
  perf.map (fun p => p / m0 * multiplier)

/-- Error taxonomy for calibration input validation, from the spec section 7. -/
inductive CalibError
  | missingInput
  | invalidMethod
  | invalidTissueType
deriving DecidableEq

/-- Tissue-type name lookup for reference-region calibration. -/
def parseTissueType (s : String) : Option TissueType :=
  if s = "csf" then some .csf
  else if s = "wm" then some .wm
  else if s = "gm" then some .gm
  else none

/-- Modelled from the spec: the calibration entry point.  Validation happens
before any computation: missing perfusion or calibration input gives
MissingInputError, an unsupported method string gives InvalidMethodError, and
an unknown tissue-type name in reference-region mode gives
InvalidTissueTypeError. -/
def calibrate (e : ℚ → ℚ) (perf calib : Option (List ℚ)) (method tissref : String)
    (t2star : Bool) (mask : List Bool) : Except CalibError (List ℚ) :=
  match perf, calib with
  | none, _ => .error .missingInput
  | _, none => .error .missingInput
  | some p, some c =>
    if method = "voxelwise" then
      .ok (voxelwiseCalib e none none 0 1 150 1 (9 / 10) 1 1 false p c)
    else if method = "refregion" then
      match parseTissueType tissref with
      | some tiss => .ok (refregionCalib e tiss t2star (16 / 5) 0 150 1 1 1 p c mask)
      | none => .error .invalidTissueType
    else .error .invalidMethod

/-! ## Claims C5, C8, C4, C9: calibration -/

/-- Claim C5: under voxelwise calibration with default parameters the result is
`0.9 * perfusion / calibration` elementwise, and supplying gain `G`,
multiplier `M`, or inversion efficiency `A` scales that result by `1/G`, `M`
and `1/A` respectively.  `e` is the exponential collaborator (only `e 0 = 1`
is needed since the default echo time is 0). -/
theorem C5_voxelwise_default_and_scalings (e : ℚ → ℚ) (he : e 0 = 1)
    (t2t t2b G M A : ℚ) (perf calib : List ℚ) :
    voxelwiseCalib e none none 0 t2t t2b 1 (9 / 10) 1 1 false perf calib
      = List.zipWith (fun p c => 9 / 10 * p / c) perf calib
    ∧ voxelwiseCalib e none none 0 t2t t2b G (9 / 10) 1 1 false perf calib
      = (List.zipWith (fun p c => 9 / 10 * p / c) perf calib).map (fun r => r / G)
    ∧ voxelwiseCalib e none none 0 t2t t2b 1 (9 / 10) 1 M false perf calib
      = (List.zipWith (fun p c => 9 / 10 * p / c) perf calib).map (fun r => r * M)
    ∧ voxelwiseCalib e none none 0 t2t t2b 1 (9 / 10) A 1 false perf calib
      = (List.zipWith (fun p c => 9 / 10 * p / c) perf calib).map (fun r => r / A) := by
  refine ⟨?_, ?_, ?_, ?_⟩
  · unfold voxelwiseCalib
    apply zipWith_ext
    intro p c
    simp only [m0Formula, trFactor, zero_div, neg_zero, he, if_false]
    rcases eq_or_ne c 0 with rfl | hc
    · simp
    · field_simp
      ring
  · rw [map_zipWith_fuse]
    unfold voxelwiseCalib
    apply zipWith_ext
    intro p c
    simp only [m0Formula, trFactor, zero_div, neg_zero, he, if_false]
    rcases eq_or_ne c 0 with rfl | hc
    · simp
    · rcases eq_or_ne G 0 with rfl | hG
      · simp
      · field_simp
        ring
  · rw [map_zipWith_fuse]
    unfold voxelwiseCalib
    apply zipWith_ext
    intro p c
    simp only [m0Formula, trFactor, zero_div, neg_zero, he, if_false]
    rcases eq_or_ne c 0 with rfl | hc
    · simp
    · field_simp
      ring
  · rw [map_zipWith_fuse]
    unfold voxelwiseCalib
    apply zipWith_ext
    intro p c
    simp only [m0Formula, trFactor, zero_div, neg_zero, he, if_false]
    rcases eq_or_ne c 0 with rfl | hc
    · simp
    · rcases eq_or_ne A 0 with rfl | hA
      · simp
      · field_simp
        ring

/-- Witness for claim C5 at a concrete exponential and concrete images. -/
theorem C5_voxelwise_default_and_scalings_witness :
    ((fun (_ : ℚ) => (1 : ℚ)) 0 = 1)
    ∧ (voxelwiseCalib (fun _ => 1) none none 0 5 150 1 (9 / 10) 1 1 false [3] [2]
        = List.zipWith (fun p c => 9 / 10 * p / c) [3] [2]
      ∧ voxelwiseCalib (fun _ => 1) none none 0 5 150 2 (9 / 10) 1 1 false [3] [2]
        = (List.zipWith (fun p c => 9 / 10 * p / c) [(3 : ℚ)] [2]).map (fun r => r / 2)
      ∧ voxelwiseCalib (fun _ => 1) none none 0 5 150 1 (9 / 10) 1 7 false [3] [2]
        = (List.zipWith (fun p c => 9 / 10 * p / c) [(3 : ℚ)] [2]).map (fun r => r * 7)
      ∧ voxelwiseCalib (fun _ => 1) none none 0 5 150 1 (9 / 10) 4 1 false [3] [2]
        = (List.zipWith (fun p c => 9 / 10 * p / c) [(3 : ℚ)] [2]).map (fun r => r / 4)) := by
  constructor
  · rfl
  · exact ⟨(C5_voxelwise_default_and_scalings (fun _ => 1) rfl 5 150 2 7 4 [3] [2]).1,
      (C5_voxelwise_default_and_scalings (fun _ => 1) rfl 5 150 2 7 4 [3] [2]).2.1,
      (C5_voxelwise_default_and_scalings (fun _ => 1) rfl 5 150 2 7 4 [3] [2]).2.2.1,
      (C5_voxelwise_default_and_scalings (fun _ => 1) rfl 5 150 2 7 4 [3] [2]).2.2.2⟩

/-- Scalar core of claim C8, mean mode: the voxelwise calibrated value is the
perfusion-over-calibration ratio times one combined correction factor. -/
theorem c8_mean_point (p c f G pct A M : ℚ) :
    p / (c / f / 1 * G / pct * 1 * A) * M = pct * f * M / (G * A) * p / c := by
  rcases eq_or_ne c 0 with rfl | hc
  · simp
  rcases eq_or_ne f 0 with rfl | hf
  · simp
  rcases eq_or_ne G 0 with rfl | hG
  · simp
  rcases eq_or_ne A 0 with rfl | hA
  · simp
  rcases eq_or_ne pct 0 with rfl | hp
  · simp
  field_simp
  ring

/-- Scalar core of claim C8, variance mode: every factor of the mean-mode
expression appears squared. -/
theorem c8_var_point (p c f G pct A M : ℚ) :
    p / (c / f / 1 * G / pct * 1 * A * (c / f / 1 * G / pct * 1 * A)) * (M * M)
      = (pct * f * M / (G * A)) ^ 2 * p / c ^ 2 := by
  rcases eq_or_ne c 0 with rfl | hc
  · simp
  rcases eq_or_ne f 0 with rfl | hf
  · simp
  rcases eq_or_ne G 0 with rfl | hG
  · simp
  rcases eq_or_ne A 0 with rfl | hA
  · simp
  rcases eq_or_ne pct 0 with rfl | hp
  · simp
  field_simp
  ring

/-- Claim C8: for every gain `G`, inversion efficiency `A`, multiplier `M`,
tissue-blood coefficient `pct` and TR/T1 correction (the `trFactor` term), the
variance-mode voxelwise result equals the mean-mode result with every
multiplicative or divisive correction factor squared, the calibration voxel
included: the mean-mode result is `F * p / c` with
`F = pct * trFactor * M / (G * A)` and the variance-mode result is
`F^2 * p / c^2`. -/
theorem C8_variance_squares_factors (e : ℚ → ℚ) (he : e 0 = 1)
    (t2t t2b pct G A M : ℚ) (tr t1t : Option ℚ) (perf calib : List ℚ) :
    voxelwiseCalib e tr t1t 0 t2t t2b G pct A M false perf calib
      = List.zipWith (fun p c => pct * trFactor e tr t1t * M / (G * A) * p / c)
          perf calib
    ∧ voxelwiseCalib e tr t1t 0 t2t t2b G pct A M true perf calib
      = List.zipWith (fun p c => (pct * trFactor e tr t1t * M / (G * A)) ^ 2 * p / c ^ 2)
          perf calib := by
  constructor
  · unfold voxelwiseCalib
    apply zipWith_ext
    intro p c
    simp only [m0Formula, zero_div, neg_zero, he, if_false]
    exact c8_mean_point p c (trFactor e tr t1t) G pct A M
  · unfold voxelwiseCalib
    apply zipWith_ext
    intro p c
    simp only [m0Formula, zero_div, neg_zero, he, if_true]
    exact c8_var_point p c (trFactor e tr t1t) G pct A M

/-- Witness for claim C8 at a concrete exponential, parameters and images. -/
theorem C8_variance_squares_factors_witness :
    ((fun (_ : ℚ) => (1 : ℚ)) 0 = 1)
    ∧ voxelwiseCalib (fun _ => 1) none none 0 5 150 2 (9 / 10) 4 7 false [3] [2]
      = List.zipWith
          (fun p c => 9 / 10 * trFactor (fun _ => 1) none none * 7 / (2 * 4) * p / c)
          [(3 : ℚ)] [2]
    ∧ voxelwiseCalib (fun _ => 1) none none 0 5 150 2 (9 / 10) 4 7 true [3] [2]
      = List.zipWith
          (fun p c => (9 / 10 * trFactor (fun _ => 1) none none * 7 / (2 * 4)) ^ 2 * p / c ^ 2)
          [(3 : ℚ)] [2] :=
  ⟨rfl,
    (C8_variance_squares_factors (fun _ => 1) rfl 5 150 (9 / 10) 2 4 7 none none [3] [2]).1,
    (C8_variance_squares_factors (fun _ => 1) rfl 5 150 (9 / 10) 2 4 7 none none [3] [2]).2⟩

/-- An all-ones mask selects every calibration voxel. -/
theorem zip_replicate_true_filterMap (calib : List ℚ) :
    (List.zip calib (List.replicate calib.length true)).filterMap
      (fun pr => if pr.2 then some pr.1 else none) = calib := by
  induction calib with
  | nil => simp
  | cons c cs ih => simp [List.replicate_succ, ih]

/-- The masked mean over an all-ones mask is the mean of the whole image. -/
theorem maskedMean_all (calib : List ℚ) :
    maskedMean calib (List.replicate calib.length true)
      = calib.sum / (calib.length : ℚ) := by
  unfold maskedMean
  rw [zip_replicate_true_filterMap]

/-- Statement-side M0 for claim C4, written out with the tissue-constant table
exactly as the claim lists it: csf T1=4.3, T2=750, pc=1.15; wm T1=1.0, T2=50,
pc=0.82; gm T1=1.3, T2=100, pc=0.98; with T2* requested, T2 becomes 400 for
csf and 60 for wm and gm.  Defaults TR=3.2, TE=0, T2b=150, gain=alpha=1. -/
def claimRefM0 (e : ℚ → ℚ) (tiss : TissueType) (t2star : Bool) (sig : ℚ) : ℚ :=
  let t1 : ℚ := match tiss with
    | .csf => 43 / 10
    | .wm => 1
    | .gm => 13 / 10
  let t2 : ℚ := match tiss, t2star with
    | .csf, false => 750
    | .csf, true => 400
    | .wm, false => 50
    | .wm, true => 60
    | .gm, false => 100
    | .gm, true => 60
  let pc : ℚ := match tiss with
    | .csf => 115 / 100
    | .wm => 82 / 100
    | .gm => 98 / 100
  sig / (1 - e (-(16 / 5 / t1))) / e (-(0 / t2)) * 1 / pc * e (-(0 / 150)) * 1

/-- Claim C4: under reference-region calibration with an all-ones mask the
result is `perfusion / M0` elementwise, where M0 is the closed-form relaxation
formula applied to the mean calibration signal with the built-in tissue
table (csf T1=4.3, T2=750, pc=1.15; wm T1=1.0, T2=50, pc=0.82; gm T1=1.3,
T2=100, pc=0.98; T2* substitutes 400 for csf and 60 for wm and gm). -/
theorem C4_refregion_all_ones_mask (e : ℚ → ℚ) (tiss : TissueType) (t2star : Bool)
    (perf calib : List ℚ) :
    refregionCalib e tiss t2star (16 / 5) 0 150 1 1 1 perf calib
        (List.replicate calib.length true)
      = perf.map (fun p =>
          p / claimRefM0 e tiss t2star (calib.sum / (calib.length : ℚ))) := by
  unfold refregionCalib
  rw [maskedMean_all]
  cases tiss <;> cases t2star <;>
    simp [m0Formula, trFactor, claimRefM0, tissT1, tissT2, tissPC]

/-- Claim C9: calibration input validation.  A missing perfusion or
calibration image fails with MissingInputError, an unsupported method string
fails with InvalidMethodError, and an unknown tissue-type name in
reference-region mode fails with InvalidTissueTypeError; in the model (as in
the spec) these checks precede any computation. -/
theorem C9_validation_errors (e : ℚ → ℚ) (perf calib : Option (List ℚ))
    (method tissref : String) (t2star : Bool) (mask : List Bool) :
    (perf = none ∨ calib = none →
      calibrate e perf calib method tissref t2star mask = .error .missingInput)
    ∧ (perf.isSome → calib.isSome → method ≠ "voxelwise" → method ≠ "refregion" →
      calibrate e perf calib method tissref t2star mask = .error .invalidMethod)
    ∧ (perf.isSome → calib.isSome → parseTissueType tissref = none →
      calibrate e perf calib "refregion" tissref t2star mask
        = .error .invalidTissueType) := by
  refine ⟨?_, ?_, ?_⟩
  · rintro (rfl | rfl)
    · cases calib <;> rfl
    · cases perf <;> rfl
  · intro hp hc hm1 hm2
    cases perf with
    | none => simp at hp
    | some p =>
      cases calib with
      | none => simp at hc
      | some c => simp [calibrate, hm1, hm2]
  · intro hp hc ht
    cases perf with
    | none => simp at hp
    | some p =>
      cases calib with
      | none => simp at hc
      | some c => simp [calibrate, ht]

/-- Witness for claim C9: the three error cases at concrete inputs (mirroring
the repository tests: no data, method "random", tissue "kryptonite"). -/
theorem C9_validation_errors_witness :
    calibrate (fun _ => 1) none (some [1]) "voxelwise" "csf" false []
      = .error .missingInput
    ∧ calibrate (fun _ => 1) (some [1]) (some [1]) "random" "csf" false []
      = .error .invalidMethod
    ∧ calibrate (fun _ => 1) (some [1]) (some [1]) "refregion" "kryptonite" false []
      = .error .invalidTissueType :=
  ⟨(C9_validation_errors (fun _ => 1) none (some [1]) "voxelwise" "csf" false []).1
      (Or.inl rfl),
    (C9_validation_errors (fun _ => 1) (some [1]) (some [1]) "random" "csf" false []).2.1
      rfl rfl (by decide) (by decide),
    (C9_validation_errors (fun _ => 1) (some [1]) (some [1]) "refregion" "kryptonite" false []).2.2
      rfl rfl (by decide)⟩

/-! ## Corrections module (src/oxasl/corrections.py) -/

/-- Embedding of `get_sensitivity_correction` (corrections.py lines 293-332).
The function runs only when no sensitivity image is already present.  Branch
order follows the source: correction disabled; user-supplied image (the source
only writes a log line in this branch and never assigns `wsp.sensitivity`,
although its docstring lists `sensitivity` as an updated attribute);
calibration/reference ratio; reciprocal of the FAST bias field transformed to
ASL space; otherwise nothing.  `struc2asl` is the external registration
collaborator. -/
def get_sensitivity_correction (struc2asl : List ℚ → List ℚ)
    (sensitivity : Option (List ℚ)) (senscorr_off : Bool)
    (isen : Option (List ℚ)) (calib cref : Option (List ℚ))
    (senscorr_auto : Bool) (bias : Option (List ℚ)) : Option (List ℚ) :=
  if sensitivity.isSome then sensitivity
  else if senscorr_off then none
  else if isen.isSome then none
  else
    match calib, cref with
    | some c, some r => some (List.zipWith (fun a b => a / b) c r)
    | _, _ =>
      if senscorr_auto then
        match bias with
        | some b => some (struc2asl (b.map (fun v => v⁻¹)))
        | none => none
      else none

/-- Claim C2: with correction not disabled and a user-supplied sensitivity
image, the source only logs the choice and never stores the image, so the
resulting sensitivity field is `none` (not the user-supplied field, contrary
to the claim and to the docstring of the source function). -/
theorem C2_user_sensitivity_not_stored (struc2asl : List ℚ → List ℚ)
    (u : List ℚ) (calib cref : Option (List ℚ)) (senscorr_auto : Bool)
    (bias : Option (List ℚ)) :
    get_sensitivity_correction struc2asl none false (some u) calib cref
        senscorr_auto bias = none
    ∧ get_sensitivity_correction struc2asl none false (some u) calib cref
        senscorr_auto bias ≠ some u := by
  constructor
  · rfl
  · simp [get_sensitivity_correction]

/-- Python runtime errors that abort a run; the two the report-generation code
of `get_fieldmap_correction` can raise. -/
inductive PyError
  | typeError
  | attributeError
deriving DecidableEq

/-- Embedding of `get_fieldmap_correction` (corrections.py lines 146-214).
The warp is produced only when the three fieldmap images and both `pedir` and
`echospacing` are present (otherwise the source just writes a log line or a
WARNING line).  The report-generation block (lines 202-212) runs
unconditionally: it formats `wsp.echospacing` with `"%f"`, which raises
TypeError when echo spacing is None, and reads `wsp.fieldmap.warp.data`, which
raises AttributeError when no warp was computed.  `extWarp` stands for the
external epi_reg/convertwarp result used when all inputs are present. -/
def get_fieldmap_correction (extWarp : List ℚ)
    (fmap fmapmag fmapmagbrain : Option (List ℚ))
    (pedir : Option String) (echospacing : Option ℚ) :
    Except PyError (Option (List ℚ)) :=
  let warp : Option (List ℚ) :=
    if fmap.isNone || fmapmag.isNone || fmapmagbrain.isNone then none
    else if pedir.isNone || echospacing.isNone then none
    else some extWarp
  match echospacing with
  | none => .error .typeError
  | some _ =>
    match warp with
    | none => .error .attributeError
    | some w => .ok (some w)

/-- Claim C3 (refuting evidence): when a fieldmap image is present but the
phase-encode direction or the echo spacing is missing, the function does not
merely warn and continue: its unconditional report generation raises a fatal
Python error (TypeError formatting the missing echo spacing, or AttributeError
reading the data of the never-computed warp). -/
theorem C3_fieldmap_warning_branch_fatal (extWarp : List ℚ)
    (fmap fmapmag fmapmagbrain : Option (List ℚ))
    (pedir : Option String) (echospacing : Option ℚ)
    (hf : fmap.isSome) (h : pedir = none ∨ echospacing = none) :
    ∃ err, get_fieldmap_correction extWarp fmap fmapmag fmapmagbrain pedir
      echospacing = .error err := by
  rcases h with hp | he
  · cases echospacing with
    | none => exact ⟨.typeError, rfl⟩
    | some es =>
      refine ⟨.attributeError, ?_⟩
      subst hp
      unfold get_fieldmap_correction
      cases hm : (fmap.isNone || fmapmag.isNone || fmapmagbrain.isNone) <;> simp [hm]
  · subst he
    exact ⟨.typeError, rfl⟩

/-- Witness for claim C3: all three fieldmap images supplied, `pedir` given,
echo spacing missing. -/
theorem C3_fieldmap_warning_branch_fatal_witness :
    ∃ err, get_fieldmap_correction [0] (some [1]) (some [1]) (some [1])
      (some "y") none = .error err :=
  C3_fieldmap_warning_branch_fatal [0] (some [1]) (some [1]) (some [1])
    (some "y") none rfl (Or.inr rfl)

/-- Matrix inverse as computed by `np.linalg.inv` for an invertible matrix:
the adjugate divided by the determinant. -/
def inv4 (A : Matrix (Fin 4) (Fin 4) ℚ) : Matrix (Fin 4) (Fin 4) ℚ :=
  (A.det)⁻¹ • A.adjugate

/-- `inv4` is a left inverse whenever the determinant is nonzero. -/
theorem inv4_mul_self (A : Matrix (Fin 4) (Fin 4) ℚ) (h : A.det ≠ 0) :
    inv4 A * A = 1 := by
  unfold inv4
  rw [Matrix.smul_mul, Matrix.adjugate_mul, smul_smul, inv_mul_cancel₀ h, one_smul]

/-- Embedding of the re-centering step of `get_motion_correction`
(corrections.py lines 266-269): the transform of the middle volume
(index `int(float(n)/2)`, i.e. `n / 2` rounded down) is extracted, inverted,
and pre-multiplied (`np.dot(calib2asl, mat)`) into every per-volume
transform. -/
def recenterMats (mats : List (Matrix (Fin 4) (Fin 4) ℚ)) :
    List (Matrix (Fin 4) (Fin 4) ℚ) :=
  let asl2calib := mats.getD (mats.length / 2) 1
  let calib2asl := inv4 asl2calib
  mats.map (fun m => calib2asl * m)

/-- Claim C6: after motion-correction re-centering every transform has been
pre-multiplied by the inverse of the middle-volume transform (index
`floor(n/2)`), and the transform of the middle volume becomes exactly the
identity (hence within any numerical tolerance), provided the middle-volume
transform is invertible. -/
theorem C6_recentering_middle_identity (mats : List (Matrix (Fin 4) (Fin 4) ℚ))
    (n : ℕ) (hn : mats.length = n) (h0 : 0 < n)
    (hdet : (mats.getD (n / 2) 1).det ≠ 0) :
    recenterMats mats = mats.map (fun m => inv4 (mats.getD (n / 2) 1) * m)
    ∧ (recenterMats mats).getD (n / 2) 1 = 1 := by
  subst hn
  constructor
  · rfl
  · have hlt : mats.length / 2 < mats.length := Nat.div_lt_self h0 (by norm_num)
    unfold recenterMats
    rw [List.getD_eq_getElem _ _ hlt, List.getD_eq_getElem _ _ (by simpa using hlt),
      List.getElem_map]
    rw [List.getD_eq_getElem _ _ hlt] at hdet
    exact inv4_mul_self _ hdet

/-- Witness for claim C6 on a concrete two-volume series of identity
transforms. -/
theorem C6_recentering_middle_identity_witness :
    (([1, 1] : List (Matrix (Fin 4) (Fin 4) ℚ)).length = 2 ∧ 0 < 2
      ∧ (([1, 1] : List (Matrix (Fin 4) (Fin 4) ℚ)).getD (2 / 2) 1).det ≠ 0)
    ∧ (recenterMats [1, 1]
        = ([1, 1] : List (Matrix (Fin 4) (Fin 4) ℚ)).map
            (fun m => inv4 (([1, 1] : List (Matrix (Fin 4) (Fin 4) ℚ)).getD (2 / 2) 1) * m)
      ∧ (recenterMats ([1, 1] : List (Matrix (Fin 4) (Fin 4) ℚ))).getD (2 / 2) 1 = 1) := by
  have hdet : (([1, 1] : List (Matrix (Fin 4) (Fin 4) ℚ)).getD (2 / 2) 1).det ≠ 0 := by
    simp [List.getD]
  exact ⟨⟨rfl, by norm_num, hdet⟩,
    C6_recentering_middle_identity [1, 1] 2 rfl (by norm_num) hdet⟩

/-- The six canonical phase-encode directions accepted by
`get_cblip_correction` (corrections.py lines 107-119). -/
inductive Pedir
  | x
  | negx
  | y
  | negy
  | z
  | negz
deriving DecidableEq

/-- Embedding of the `topup_params` table literal (corrections.py lines
107-114); the fourth entry of every row is the -99 placeholder that is later
overwritten with the total readout time. -/
def pedirRows : Pedir → List (List ℚ)
  | .x => [[1, 0, 0, -99], [-1, 0, 0, -99]]
  | .negx => [[-1, 0, 0, -99], [1, 0, 0, -99]]
  | .y => [[0, 1, 0, -99], [0, -1, 0, -99]]
  | .negy => [[0, -1, 0, -99], [0, 1, 0, -99]]
  | .z => [[0, 0, 1, -99], [0, 0, -1, -99]]
  | .negz => [[0, 0, -1, -99], [0, 0, 1, -99]]

/-- Embedding of the `dim_idx` table (corrections.py lines 115-119): the data
axis indexed by each phase-encode direction. -/
def dimIdx : Pedir → Fin 3
  | .x => 0
  | .negx => 0
  | .y => 1
  | .negy => 1
  | .z => 2
  | .negz => 2

/-- Embedding of the synthetic acquisition-parameters table built by
`get_cblip_correction` (corrections.py lines 120-123): the row pair for the
direction with column 3 set to `echospacing * (dimsize - 1)`, where `dimsize`
is the ASL data shape along the encoding axis. -/
def topupAcqParams (p : Pedir) (echospacing : ℚ) (shape : Fin 3 → ℕ) :
    List (List ℚ) :=
  let dimsize := shape (dimIdx p)
  (pedirRows p).map (fun row => row.set 3 (echospacing * ((dimsize : ℚ) - 1)))

/-- Statement-side helper for claim C7: a 3-entry direction vector with the
given signed unit entry in the encoding axis and zero elsewhere. -/
def unitRow (axis : Fin 3) (sign : ℚ) : List ℚ :=
  [if axis = 0 then sign else 0, if axis = 1 then sign else 0,
    if axis = 2 then sign else 0]

/-- Statement-side helper for claim C7: the sign convention of the first row
per direction. -/
def pedirSign : Pedir → ℚ
  | .x => 1
  | .y => 1
  | .z => 1
  | .negx => -1
  | .negy => -1
  | .negz => -1

/-- Claim C7: for every phase-encode direction and echo spacing, the synthetic
acquisition-parameters table is exactly two rows `[dir_x, dir_y, dir_z, trt]`
with antiparallel unit direction vectors (plus or minus 1 in the encoding
axis, 0 elsewhere) and `trt = echospacing * (N - 1)` where `N` is the number
of ASL voxels along the encoding axis. -/
theorem C7_topup_acquisition_table (p : Pedir) (echospacing : ℚ)
    (shape : Fin 3 → ℕ) :
    topupAcqParams p echospacing shape
      = [unitRow (dimIdx p) (pedirSign p)
          ++ [echospacing * ((shape (dimIdx p) : ℚ) - 1)],
         unitRow (dimIdx p) (-(pedirSign p))
          ++ [echospacing * ((shape (dimIdx p) : ℚ) - 1)]] := by
  cases p <;>
    simp [topupAcqParams, pedirRows, dimIdx, pedirSign, unitRow, List.set]

/-! ## Quantification orchestrator (src/oxasl/basil/quantify.py) -/

/-- Images for the orchestrator model: either a user/workspace image or the
result of transforming one into another space via `reg.change_space`. -/
inductive Img
  | named (s : String)
  | changedSpace (src : Img) (space : String)
deriving DecidableEq

/-- One invocation of the external model-fitting step `fit.run`, with the
result-set name, the prefit flag and the PV maps passed through
`basil_options`. -/
structure FitCall where
  name : String
  prefit : Bool
  pwm : Option Img
  pgm : Option Img
deriving DecidableEq

/-- The workspace fields of quantify.py `run` that determine which fitting
invocations happen: the PVEc options, the user-supplied PV maps, the
alternate output-space flags and the structural-segmentation PV maps. -/
structure QuantifyWsp where
  pvcorr : Bool
  surf_pvcorr : Bool
  pvgm : Option Img
  pvwm : Option Img
  quantify_struc : Bool
  quantify_std : Bool
  quantify_custom : Bool
  wm_pv : Img
  gm_pv : Img
deriving DecidableEq

/-- quantify.py line 68: `user_pv_flag = (pvwm is not None) and (pvgm is not
None)`. -/
def user_pv_flag (w : QuantifyWsp) : Bool := w.pvwm.isSome && w.pvgm.isSome

/-- Embedding of `_default_pvcorr` (quantify.py lines 83-102): with
user-supplied maps the fit uses them directly; otherwise the FAST maps are
transformed into ASL space first.  The fit runs with `prefit=False` under the
name `basil_pvcorr`. -/
def default_pvcorr_fit (w : QuantifyWsp) : FitCall :=
  if user_pv_flag w then
    FitCall.mk "basil_pvcorr" false w.pvwm w.pvgm
  else
    FitCall.mk "basil_pvcorr" false (some (Img.changedSpace w.wm_pv "asl"))
      (some (Img.changedSpace w.gm_pv "asl"))

/-- Embedding of the shrunk analysis mask of `_surf_pvcorr` (quantify.py lines
114-116): voxels where the WM or GM PV fraction exceeds 0.01. -/
def surf_pvcorr_new_roi (pwm pgm : List ℚ) : List Bool :=
  List.zipWith (fun wv gv => decide (1 / 100 < wv) || decide (1 / 100 < gv)) pwm pgm

/-- Embedding of `run` (quantify.py lines 49-81) as the ordered sequence of
fitting invocations it performs.  The plain fit always runs; one fit per
requested alternate space follows; the FAST/user PV fit runs when `pvcorr` or
both user maps are given.  Line 81 of the source reads `_surf_pvcorr` as a
bare expression without calling it, so the surface-based branch contributes no
invocation (modelled by the trailing `++ []`). -/
def quantify_run (w : QuantifyWsp) : List FitCall :=
  [FitCall.mk "basil" true none none]
    ++ (if w.quantify_struc then [FitCall.mk "basil_struc" true none none] else [])
    ++ (if w.quantify_std then [FitCall.mk "basil_std" true none none] else [])
    ++ (if w.quantify_custom then [FitCall.mk "basil_custom" true none none] else [])
    ++ (if w.pvcorr || w.surf_pvcorr || user_pv_flag w then
          (if w.pvcorr || user_pv_flag w then [default_pvcorr_fit w] else []) ++ []
        else [])

/-- The ordered list of produced result-set identifiers: one name is appended
per fit that runs. -/
def quantify_wsps (w : QuantifyWsp) : List String :=
  (quantify_run w).map FitCall.name

/-- Claim C1 (refuting evidence): in a run that requests only the
surface-based PV correction, the orchestrator performs no surface-based
fitting invocation and never appends `basil_surf_pvcorr` to the result-set
list, because quantify.py line 81 evaluates `_surf_pvcorr` without calling
it. -/
theorem C1_surf_fit_never_runs :
    quantify_run (QuantifyWsp.mk false true none none false false false
        (Img.named "wm") (Img.named "gm"))
      = [FitCall.mk "basil" true none none]
    ∧ "basil_surf_pvcorr" ∉ quantify_wsps (QuantifyWsp.mk false true none none
        false false false (Img.named "wm") (Img.named "gm")) := by
  constructor
  · rfl
  · decide

/-- Claim C10: when both user PV maps are supplied, the orchestrator performs
the PV-corrected fit with those maps passed through unchanged (no space
transformation), whether or not `pvcorr` was requested; with `pvcorr` off and
at most one of the two maps supplied, no `basil_pvcorr` fit happens. -/
theorem C10_user_pv_maps_fit (w : QuantifyWsp) (wm gm : Img) :
    (w.pvwm = some wm → w.pvgm = some gm →
      FitCall.mk "basil_pvcorr" false (some wm) (some gm) ∈ quantify_run w)
    ∧ (w.pvcorr = false → (w.pvwm = none ∨ w.pvgm = none) →
      "basil_pvcorr" ∉ quantify_wsps w) := by
  constructor
  · intro hw hg
    have hflag : user_pv_flag w = true := by simp [user_pv_flag, hw, hg]
    have hfit : default_pvcorr_fit w
        = FitCall.mk "basil_pvcorr" false (some wm) (some gm) := by
      simp [default_pvcorr_fit, hflag, hw, hg]
    simp [quantify_run, hflag, hfit]
  · intro hp h1
    have hflag : user_pv_flag w = false := by
      rcases h1 with h | h <;> simp [user_pv_flag, h]
    cases hs : w.quantify_struc <;> cases ht : w.quantify_std <;>
      cases hu : w.quantify_custom <;> cases hv : w.surf_pvcorr <;>
        simp [quantify_wsps, quantify_run, hp, hflag, hs, ht, hu, hv]

/-- Witness for claim C10: a run with both user maps and `pvcorr` off does
fit `basil_pvcorr` on the raw maps; a run with only the WM map and `pvcorr`
off fits no `basil_pvcorr`. -/
theorem C10_user_pv_maps_fit_witness :
    FitCall.mk "basil_pvcorr" false (some (Img.named "uwm")) (some (Img.named "ugm"))
      ∈ quantify_run (QuantifyWsp.mk false false (some (Img.named "ugm"))
          (some (Img.named "uwm")) false false false (Img.named "wm") (Img.named "gm"))
    ∧ "basil_pvcorr" ∉ quantify_wsps (QuantifyWsp.mk false false none
        (some (Img.named "uwm")) false false false (Img.named "wm") (Img.named "gm")) :=
  ⟨(C10_user_pv_maps_fit (QuantifyWsp.mk false false (some (Img.named "ugm"))
        (some (Img.named "uwm")) false false false (Img.named "wm") (Img.named "gm"))
      (Img.named "uwm") (Img.named "ugm")).1 rfl rfl,
    (C10_user_pv_maps_fit (QuantifyWsp.mk false false none (some (Img.named "uwm"))
        false false false (Img.named "wm") (Img.named "gm"))
      (Img.named "uwm") (Img.named "ugm")).2 rfl (Or.inr rfl)⟩

end Oxasl
